import Mathlib

/-!
Verification development for the sn_node duty-dispatch engine.

The definitions below are a shallow embedding of the two source files
`src/node/handle.rs` (the duty dispatcher `Node::handle` and its subsystem
getters) and `src/node/node_duties/network_events.rs` (the network event
translator `NetworkEvents::process_network_event`).

Identifiers, branch structure and the order of state mutations follow the
Rust source.  Code of the repository that is not among the given source
files (the chunk store, metadata store, transfer ledger, reward process and
duty-config collaborators, and external crates such as `sn_messaging` and
`sn_routing`) is modelled from the specification's contracts; each such
definition carries a doc comment saying so.
-/

/-- A 256-bit network name, modelled as a list of bits (`xor_name::XorName`,
external crate). -/
abbrev XorName := List Bool

/-- Node age (external `sn_routing` notion). -/
abbrev Age := Nat

/-- A BLS public key, kept abstract (external `sn_data_types::PublicKey`). -/
abbrev PublicKey := Nat

/-- Identifier of a credit (`sn_data_types::CreditId`, external). -/
abbrev CreditId := Nat

/-- The id of a client or node a message originates from, kept abstract. -/
abbrev EndUser := Nat

/-- A section prefix: the leading bits of the names a section is responsible
for (`sn_routing::Prefix`, external). -/
abbrev SectionPrefix := List Bool

/-- Modelled from the spec: the membership layer's prefix test, true when the
name falls under the section's responsibility (leading bits agree). -/
def SectionPrefix.matches (p : SectionPrefix) (n : XorName) : Bool :=
  p.isPrefixOf n

/-- A message identifier (`sn_messaging::MessageId`, external crate).  The
only structure the dispatcher relies on is that `combine` is a deterministic
function of the names it is given, so a message id is modelled as the list of
names it was combined from. -/
abbrev MessageId := List XorName

/-- Modelled from the spec: `MessageId::combine` deterministically combines a
vector of names into one message id. -/
def MessageId.combine (names : List XorName) : MessageId := names

/-- A quorum-certified entitlement to a reward payment
(`sn_data_types::CreditAgreementProof`, external): identified by a
`CreditId`, immutable once constructed, carrying the rewarded amount. -/
structure CreditAgreementProof where
  id : CreditId
  amount : Nat
deriving DecidableEq, Repr

/-- A completed round's map of finalized proofs keyed by credit id
(`section_funds::Credits`). -/
abbrev Credits := List (CreditId × CreditAgreementProof)

/-- Modelled from the spec: the sum of all proofs in a completed round is the
total reward paid that round, used only for observability. -/
def Credits.sum (cs : Credits) : Nat :=
  (cs.map (fun c => c.2.amount)).foldr (fun a b => a + b) 0

/-- An immutable data chunk; the dispatcher only ever looks at its address
name (`data.address().name()` in the source). -/
structure Blob where
  name : XorName
  payload : Nat
deriving DecidableEq, Repr

/-- A chunk read request; `dst_address` in the source is the address the
query targets, modelled as a field. -/
structure BlobRead where
  address : XorName
deriving DecidableEq, Repr

/-- A metadata read query; `dst_address` is modelled as a field. -/
structure DataQuery where
  address : XorName
deriving DecidableEq, Repr

/-- A metadata write command, address-scoped like the query. -/
structure DataCmd where
  address : XorName
deriving DecidableEq, Repr

/-- Destination of an outgoing message (`sn_messaging::DstLocation`). -/
inductive DstLocation where
  | Section (name : XorName)
  | Node (name : XorName)
deriving DecidableEq, Repr

/-- Message aggregation scheme (`sn_messaging::Aggregation`). -/
inductive Aggregation where
  | None
  | AtDestination
deriving DecidableEq, Repr

/-- The node-query payloads the dispatcher builds when forwarding
(`sn_messaging::client::NodeQuery`). -/
inductive NodeQueryMsg where
  | Chunks (query : BlobRead) (origin : EndUser)
  | Metadata (query : DataQuery) (origin : EndUser)
deriving DecidableEq, Repr

/-- The wire messages the dispatcher builds (`sn_messaging::client::Message`),
restricted to the variants the embedded branches construct. -/
inductive Message where
  | NodeQuery (query : NodeQueryMsg) (id : MessageId) (target_section_pk : Option PublicKey)
deriving DecidableEq, Repr

/-- An outgoing message with its routing envelope (`node_ops::OutgoingMsg`). -/
structure OutgoingMsg where
  msg : Message
  dst : DstLocation
  section_source : Bool
  aggregation : Aggregation
deriving DecidableEq, Repr

/-- Modelled from the spec: one piece of quorum evidence for a credit,
contributed by a peer Elder (`reward_stage::CreditAccumulation`; the
`section_funds` module is not among the given source files). -/
structure CreditAccumulation where
  sender : XorName
  id : CreditId
  proof : CreditAgreementProof
deriving DecidableEq, Repr

/-- Modelled from the spec: the reward churn state machine's stages,
`AwaitingProposals -> Accumulating (partial credit evidence per CreditId) ->
Completed (finalized credit proofs)` (`reward_stage::RewardStage`, not among
the given source files).  An `Accumulating` entry pairs a pending credit with
the set of peers whose evidence has been merged so far. -/
inductive RewardStage where
  | AwaitingProposals
  | Accumulating (evidence : List (CreditId × CreditAgreementProof × List XorName))
  | Completed (credit_proofs : Credits)
deriving DecidableEq, Repr

/-- Modelled from the spec: a peer Elder's proposed reward split, the list of
credits the round should pay out. -/
abbrev RewardProposal := List (CreditId × CreditAgreementProof)

/-- Modelled from the spec: the state machine driving one churn round's
reward-splitting protocol (`reward_process::RewardProcess`, not among the
given source files).  The quorum threshold is section-membership-derived and
kept as a field. -/
structure RewardProcess where
  quorum : Nat
  stage : RewardStage
deriving DecidableEq, Repr

/-- Modelled from the spec: adding a supporter to a credit's evidence set is
idempotent on duplicate evidence from the same peer. -/
def addSupporter (x : XorName) (xs : List XorName) : List XorName :=
  if x ∈ xs then xs else x :: xs

/-- Modelled from the spec: merge one piece of evidence toward its
`CreditId`'s quorum; evidence for other ids is retained unchanged. -/
def mergeEvidence (ev : List (CreditId × CreditAgreementProof × List XorName))
    (acc : CreditAccumulation) : List (CreditId × CreditAgreementProof × List XorName) :=
  ev.map (fun e => if e.1 = acc.id then (e.1, e.2.1, addSupporter acc.sender e.2.2) else e)

/-- The follow-up duties and state effects the dispatcher can produce.
Input variants mirror `node_ops::NodeDuty` for the duties the embedded
dispatcher branches handle; the `…Result`, `PropagateCredit`,
`RewardFollowUp` and `ChunkReplicationQuery` variants stand for the duties
returned by the out-of-scope subsystem collaborators (modelled from the
spec's interface contracts). -/
inductive NodeDuty where
  | NoOp
  | Send (msg : OutgoingMsg)
  | ReceiveRewardProposal (proposal : RewardProposal)
  | ReceiveRewardAccumulation (accumulation : CreditAccumulation)
  | SetNodeWallet (wallet_id : PublicKey) (node_id : XorName) (msg_id : MessageId) (origin : EndUser)
  | GetNodeWalletKey (node_name : XorName) (msg_id : MessageId) (origin : EndUser)
  | ProcessLostMember (name : XorName) (age : Age)
  | LevelDown
  | GetTransferReplicaEvents (msg_id : MessageId) (origin : EndUser)
  | ReadChunk (read : BlobRead) (msg_id : MessageId) (origin : EndUser)
  | WriteChunk (write : Blob) (msg_id : MessageId) (origin : EndUser)
  | ProcessRead (query : DataQuery) (id : MessageId) (origin : EndUser)
  | ProcessWrite (cmd : DataCmd) (id : MessageId) (origin : EndUser)
  | AddPayment (credit : CreditAgreementProof)
  | ReplicateChunk (current_holders : List XorName) (address : XorName) (id : MessageId)
  | StoreChunkForReplication (data : Blob) (correlation_id : MessageId)
  | ReachingMaxCapacity
  | PropagateCredit (proof : CreditAgreementProof)
  | RewardFollowUp (id : CreditId)
  | ReadResult (read : BlobRead) (msg_id : MessageId) (origin : EndUser)
  | WriteResult (msg_id : MessageId) (origin : EndUser)
  | MetaReadResult (query : DataQuery) (id : MessageId) (origin : EndUser)
  | MetaWriteResult (cmd : DataCmd) (id : MessageId) (origin : EndUser)
  | TransferEventsResult (msg_id : MessageId) (origin : EndUser)
  | StoredReplicatedChunk (name : XorName)
  | ChunkReplicationQuery (address : XorName) (id : MessageId)
deriving DecidableEq, Repr

/-- Modelled from the spec: `receive_churn_proposal` records a peer Elder's
proposed reward split and returns a follow-up duty (broadcast our own
accumulation vote); it never moves the stage to `Completed` by itself. -/
def RewardProcess.receive_churn_proposal (p : RewardProcess) (proposal : RewardProposal) :
    RewardProcess × NodeDuty :=
  match p.stage with
  | .AwaitingProposals =>
      ({ p with stage := .Accumulating (proposal.map (fun c => (c.1, c.2, []))) },
       .RewardFollowUp 0)
  | _ => (p, .NoOp)

/-- Modelled from the spec: `receive_wallet_accumulation` merges one more
piece of evidence toward a `CreditId`'s quorum; when the merge causes every
pending id to reach quorum, the stage transitions to `Completed` holding the
finalized proofs.  It returns the process's follow-up duty. -/
def RewardProcess.receive_wallet_accumulation (p : RewardProcess) (acc : CreditAccumulation) :
    RewardProcess × NodeDuty :=
  match p.stage with
  | .Accumulating ev =>
      if (mergeEvidence ev acc).all (fun e => p.quorum ≤ e.2.2.length) then
        ({ p with stage := .Completed ((mergeEvidence ev acc).map (fun e => (e.1, e.2.1))) },
         .RewardFollowUp acc.id)
      else
        ({ p with stage := .Accumulating (mergeEvidence ev acc) }, .RewardFollowUp acc.id)
  | _ => (p, .NoOp)

/-- The reward wallet registry: node identity to payout wallet and age
(`reward_wallets::RewardWallets`, modelled as an association list). -/
abbrev RewardWallets := List (XorName × PublicKey × Age)

/-- Modelled from the spec: store a wallet entry for a node, replacing any
previous entry for the same identity; the age is the one supplied by the
caller of the registry (the dispatcher sources it from live membership). -/
def RewardWallets.set_node_wallet (ws : RewardWallets) (node_id : XorName)
    (wallet_id : PublicKey) (age : Age) : RewardWallets :=
  (node_id, wallet_id, age) :: ws.filter (fun e => e.1 ≠ node_id)

/-- Modelled from the spec: evict a departed node's wallet entry. -/
def RewardWallets.remove_node_wallet (ws : RewardWallets) (name : XorName) : RewardWallets :=
  ws.filter (fun e => e.1 ≠ name)

/-- The pending-payments map, `CreditId -> CreditAgreementProof`. -/
abbrev Payments := List (CreditId × CreditAgreementProof)

/-- Modelled from the spec: record a payment in the pending map, keyed by its
credit id. -/
def Payments.add (ps : Payments) (credit : CreditAgreementProof) : Payments :=
  (credit.id, credit) :: ps.filter (fun e => e.1 ≠ credit.id)

/-- The role-scoped reward container (`section_funds::SectionFunds`):
`Churning` while a reward round is open, `KeepingNodeWallets` in steady
state. -/
inductive SectionFunds where
  | Churning (process : RewardProcess) (wallets : RewardWallets) (payments : Payments)
  | KeepingNodeWallets (wallets : RewardWallets) (payments : Payments)
deriving DecidableEq, Repr

/-- Modelled from the spec: `set_node_wallet` updates the wallet registry of
whichever variant is active. -/
def SectionFunds.set_node_wallet (f : SectionFunds) (node_id : XorName)
    (wallet_id : PublicKey) (age : Age) : SectionFunds :=
  match f with
  | .Churning process wallets payments =>
      .Churning process (wallets.set_node_wallet node_id wallet_id age) payments
  | .KeepingNodeWallets wallets payments =>
      .KeepingNodeWallets (wallets.set_node_wallet node_id wallet_id age) payments

/-- Modelled from the spec: `remove_node_wallet` evicts the entry of a lost
member from whichever variant is active. -/
def SectionFunds.remove_node_wallet (f : SectionFunds) (name : XorName) : SectionFunds :=
  match f with
  | .Churning process wallets payments =>
      .Churning process (wallets.remove_node_wallet name) payments
  | .KeepingNodeWallets wallets payments =>
      .KeepingNodeWallets (wallets.remove_node_wallet name) payments

/-- Modelled from the spec: `add_payment` records a pending credit in the
payments map of whichever variant is active. -/
def SectionFunds.add_payment (f : SectionFunds) (credit : CreditAgreementProof) : SectionFunds :=
  match f with
  | .Churning process wallets payments =>
      .Churning process wallets (payments.add credit)
  | .KeepingNodeWallets wallets payments =>
      .KeepingNodeWallets wallets (payments.add credit)

/-- Modelled from the spec: the Adult chunk store collaborator
(`chunks::Chunks`, out of scope; consumed through the contracts `read`,
`write`, `replicate`, `store_replicated`, `check_capacity`). -/
structure Chunks where
  node_name : XorName
  root_dir : Nat
  stored : List Blob
deriving DecidableEq, Repr

/-- Modelled from the spec: `Chunks::new` constructs a fresh chunk store for
the node's name, rooted at its designated storage path. -/
def Chunks.new (node_name : XorName) (root_dir : Nat) : Chunks :=
  { node_name := node_name, root_dir := root_dir, stored := [] }

/-- Modelled from the spec: serving a chunk read returns a result duty and
does not change the store. -/
def Chunks.read (c : Chunks) (read : BlobRead) (msg_id : MessageId) (origin : EndUser) :
    NodeDuty :=
  let _ := c
  .ReadResult read msg_id origin

/-- Modelled from the spec: `check_capacity` reports duties when the store is
approaching its capacity. -/
def Chunks.check_storage (c : Chunks) : List NodeDuty :=
  if 1000 ≤ c.stored.length then [.ReachingMaxCapacity] else []

/-- Modelled from the spec: writing a chunk stores it and returns a result
duty. -/
def Chunks.write (c : Chunks) (write : Blob) (msg_id : MessageId) (origin : EndUser) :
    Chunks × NodeDuty :=
  ({ c with stored := write :: c.stored }, .WriteResult msg_id origin)

/-- Modelled from the spec: `replicate_chunk` requests the chunk from its
current holders, returning the outbound query duty. -/
def Chunks.replicate_chunk (c : Chunks) (address : XorName) (current_holders : List XorName)
    (id : MessageId) : NodeDuty :=
  let _ := c
  let _ := current_holders
  .ChunkReplicationQuery address id

/-- Modelled from the spec: `store_replicated_chunk` stores the replicated
chunk and returns a result duty. -/
def Chunks.store_replicated_chunk (c : Chunks) (data : Blob) : Chunks × NodeDuty :=
  ({ c with stored := data :: c.stored }, .StoredReplicatedChunk data.name)

/-- Modelled from the spec: the Elder metadata store collaborator
(`metadata::Metadata`, out of scope), tracking which adults hold which data
address. -/
structure Metadata where
  held : List (XorName × List XorName)
deriving DecidableEq, Repr

/-- Modelled from the spec: serving a metadata read returns a result duty. -/
def Metadata.read (m : Metadata) (query : DataQuery) (id : MessageId) (origin : EndUser) :
    NodeDuty :=
  let _ := m
  .MetaReadResult query id origin

/-- Modelled from the spec: serving a metadata write returns a result duty. -/
def Metadata.write (m : Metadata) (cmd : DataCmd) (id : MessageId) (origin : EndUser) :
    NodeDuty :=
  let _ := m
  .MetaWriteResult cmd id origin

/-- Modelled from the spec: `trigger_chunk_replication` returns one
replication duty per data address the departed node held. -/
def Metadata.trigger_chunk_replication (m : Metadata) (name : XorName) : List NodeDuty :=
  (m.held.filter (fun e => name ∈ e.2)).map
    (fun e => .ReplicateChunk (e.2.filter (fun h => h ≠ name)) e.1 (MessageId.combine [e.1, name]))

/-- Modelled from the spec: the Elder transfer ledger collaborator
(`transfers::Transfers`, out of scope). -/
structure Transfers where
  replica_events : List Nat
deriving DecidableEq, Repr

/-- Modelled from the spec: `all_events` returns the ledger's replica events
as a result duty. -/
def Transfers.all_events (t : Transfers) (msg_id : MessageId) (origin : EndUser) : NodeDuty :=
  let _ := t
  .TransferEventsResult msg_id origin

/-- The node's own static info (`node_info.node_name`, `node_info.root_dir`
in the source). -/
structure NodeInfo where
  node_name : XorName
  root_dir : Nat
deriving DecidableEq, Repr

/-- Modelled from the spec: the live membership/routing collaborator
(`network_api` in the source): `our_members` (identity to age), the section
prefix, our name, the section key, and the node's tracked age. -/
structure Network where
  our_members : List (XorName × Age)
  ourPrefix : SectionPrefix
  our_name : XorName
  section_public_key : PublicKey
  age : Age
deriving DecidableEq, Repr

/-- Modelled from the spec: look an identity up in the live membership
mapping, returning its age (`members.get(&node_id)` in the source). -/
def Network.member_age (n : Network) (node_id : XorName) : Option Age :=
  (n.our_members.find? (fun e => e.1 = node_id)).map (fun e => e.2)

/-- The node state (`struct Node`): the four optional subsystem handles whose
joint presence/absence encodes the role, plus the static info and the
membership collaborator. -/
structure Node where
  node_info : NodeInfo
  network_api : Network
  chunks : Option Chunks
  meta_data : Option Metadata
  transfers : Option Transfers
  section_funds : Option SectionFunds
deriving DecidableEq, Repr

/-- The typed errors of `crate::Error` the embedded branches produce. -/
inductive Error where
  | NoChunks
  | NoMetadata
  | NoTransfers
  | NoSectionFunds
  | NotChurningFunds
  | NodeNotFoundForReward
deriving DecidableEq, Repr

/-- `crate::Result`. -/
abbrev NodeResult (α : Type) := Except Error α

/-- Modelled from the spec: `Node::propagate_credits` produces one outbound
propagate-credit duty per finalized credit proof, so each payee's home
section receives its credit independently. -/
def propagate_credits (credit_proofs : Credits) : List NodeDuty :=
  credit_proofs.map (fun c => .PropagateCredit c.2)

/-- The duty dispatcher, `Node::handle` in `src/node/handle.rs`: one call
translates a duty into subsystem calls, a state update and a list of
follow-up duties, or a typed error.  Arms not among the embedded duties
(plain sends and the subsystem-result duties, which the Rust vocabulary does
not dispatch on) return an empty list without touching state, as `NoOp`
does. -/
def Node.handle (s : Node) (duty : NodeDuty) : Node × NodeResult (List NodeDuty) :=
  match duty with
  -- handle.rs lines 79-87: only a Churning section-funds state handles the
  -- proposal; otherwise the message is ignored with an empty duty list.
  | .ReceiveRewardProposal proposal =>
      match s.section_funds with
      | some (.Churning process wallets payments) =>
          ({ s with section_funds := some (.Churning
                (RewardProcess.receive_churn_proposal process proposal).1 wallets payments) },
           .ok [(RewardProcess.receive_churn_proposal process proposal).2])
      | _ => (s, .ok [])
  -- handle.rs lines 88-116: merge the accumulation; on a Completed stage,
  -- extend the ops with the propagated credits and switch the funds to
  -- KeepingNodeWallets carrying the registry and payments forward.
  | .ReceiveRewardAccumulation accumulation =>
      match s.section_funds with
      | some (.Churning process wallets payments) =>
          match (RewardProcess.receive_wallet_accumulation process accumulation).1.stage with
          | .Completed credit_proofs =>
              ({ s with section_funds := some (.KeepingNodeWallets wallets payments) },
               .ok ((RewardProcess.receive_wallet_accumulation process accumulation).2
                     :: propagate_credits credit_proofs))
          | _ =>
              ({ s with section_funds := some (.Churning
                    (RewardProcess.receive_wallet_accumulation process accumulation).1
                    wallets payments) },
               .ok [(RewardProcess.receive_wallet_accumulation process accumulation).2])
      | _ => (s, .ok [])
  -- handle.rs lines 119-139: membership is consulted for the age; an unknown
  -- node id fails with NodeNotFoundForReward.
  | .SetNodeWallet wallet_id node_id _msg_id _origin =>
      match s.section_funds with
      | some rewards =>
          match s.network_api.member_age node_id with
          | some age =>
              ({ s with section_funds := some (rewards.set_node_wallet node_id wallet_id age) },
               .ok [])
          | none => (s, .error .NodeNotFoundForReward)
      | none => (s, .error .NoSectionFunds)
  -- handle.rs lines 140-144: a no-op arm.
  | .GetNodeWalletKey _node_name _msg_id _origin => (s, .ok [])
  -- handle.rs lines 145-152: evict the wallet entry, then trigger chunk
  -- replication through the metadata store.
  | .ProcessLostMember name _age =>
      match s.section_funds with
      | some rewards =>
          let s1 := { s with section_funds := some (rewards.remove_node_wallet name) }
          match s1.meta_data with
          | some metadata => (s1, .ok (metadata.trigger_chunk_replication name))
          | none => (s1, .error .NoMetadata)
      | none => (s, .error .NoSectionFunds)
  -- handle.rs lines 159-173: demotion tears down the Elder subsystems and
  -- constructs a fresh chunk store.
  | .LevelDown =>
      ({ s with meta_data := none, transfers := none, section_funds := none,
                chunks := some (Chunks.new s.node_info.node_name s.node_info.root_dir) },
       .ok [])
  -- handle.rs lines 176-179: a representative transfer-ledger duty.
  | .GetTransferReplicaEvents msg_id origin =>
      match s.transfers with
      | some transfers => (s, .ok [transfers.all_events msg_id origin])
      | none => (s, .error .NoTransfers)
  -- handle.rs lines 237-272: a chunk read is served locally only when the
  -- address matches our prefix; otherwise it is forwarded to the owning
  -- section.
  | .ReadChunk read msg_id origin =>
      if s.network_api.ourPrefix.matches read.address then
        match s.chunks with
        | some chunks => (s, .ok (chunks.read read msg_id origin :: chunks.check_storage))
        | none => (s, .error .NoChunks)
      else
        (s, .ok [.Send { msg := .NodeQuery (.Chunks read origin) msg_id none,
                         dst := .Section read.address,
                         section_source := false,
                         aggregation := .None }])
  -- handle.rs lines 273-280: a chunk write goes to the local store with no
  -- prefix check.
  | .WriteChunk write msg_id origin =>
      match s.chunks with
      | some chunks =>
          ({ s with chunks := some (chunks.write write msg_id origin).1 },
           .ok [(chunks.write write msg_id origin).2])
      | none => (s, .error .NoChunks)
  -- handle.rs lines 303-328: a metadata read is served locally only when the
  -- address matches our prefix; otherwise it is forwarded.
  | .ProcessRead query id origin =>
      if s.network_api.ourPrefix.matches query.address then
        match s.meta_data with
        | some meta_data => (s, .ok [meta_data.read query id origin])
        | none => (s, .error .NoMetadata)
      else
        (s, .ok [.Send { msg := .NodeQuery (.Metadata query origin) id none,
                         dst := .Section query.address,
                         section_source := false,
                         aggregation := .None }])
  -- handle.rs lines 329-332: a metadata write goes to the local store with
  -- no prefix check.
  | .ProcessWrite cmd id origin =>
      match s.meta_data with
      | some meta_data => (s, .ok [meta_data.write cmd id origin])
      | none => (s, .error .NoMetadata)
  -- handle.rs lines 337-340.
  | .AddPayment credit =>
      match s.section_funds with
      | some funds => ({ s with section_funds := some (funds.add_payment credit) }, .ok [])
      | none => (s, .error .NoSectionFunds)
  -- handle.rs lines 341-350.
  | .ReplicateChunk current_holders address id =>
      match s.chunks with
      | some chunks => (s, .ok [chunks.replicate_chunk address current_holders id])
      | none => (s, .error .NoChunks)
  -- handle.rs lines 363-379: the expected id is recomputed from the chunk's
  -- address name and our name; a mismatch discards the duty before the chunk
  -- store is even looked up.
  | .StoreChunkForReplication data correlation_id =>
      if MessageId.combine [data.name, s.network_api.our_name] = correlation_id then
        match s.chunks with
        | some chunks =>
            ({ s with chunks := some (chunks.store_replicated_chunk data).1 },
             .ok [(chunks.store_replicated_chunk data).2])
        | none => (s, .error .NoChunks)
      else
        (s, .ok [])
  -- handle.rs line 380.
  | .NoOp => (s, .ok [])
  | _ => (s, .ok [])

/-- The transport-layer events the translator maps
(`sn_routing::Event`), restricted to the embedded arms; `Other` stands for
every event the source's wildcard arm ignores. -/
inductive RoutingEvent where
  | PromotedToElder
  | MemberLeft (name : XorName) (age : Age)
  | MemberJoined (name : XorName) (previous_name : Option XorName) (age : Age)
      (startup_relocation : Bool)
  | Relocated
  | Demoted
  | Other
deriving DecidableEq, Repr

/-- The domain operations the translator produces (`node_ops::NodeOperation`
by way of `ElderDuty`); `Setup` stands for the operations the duty-config
collaborator returns for a role bootstrap. -/
inductive NodeOperation where
  | ProcessLostMember (name : XorName) (age : Age)
  | ProcessNewMember (name : XorName)
  | ProcessRelocatedMember (old_node_id : XorName) (new_node_id : XorName) (age : Age)
  | Setup (tag : Nat)
deriving DecidableEq, Repr

/-- Modelled from the spec: the duty-config collaborator
(`duty_cfg::DutyConfig`, out of scope): what its role-bootstrap calls
`setup_as_elder` and `setup_as_adult` return. -/
structure DutyConfig where
  setup_as_elder : Option NodeOperation
  setup_as_adult : Option NodeOperation
deriving DecidableEq, Repr

/-- The promotion age threshold (`sn_routing::MIN_AGE`, external constant);
its concrete value is irrelevant to the dispatch logic, only the comparison
against it matters. -/
def MIN_AGE : Age := 5

/-- The network event translator,
`NetworkEvents::process_network_event` in
`src/node/node_duties/network_events.rs`: maps a transport event to at most
one domain operation.  The `MessageReceived` and `EldersChanged` arms
deserialize payloads and repackage elder sets and are outside the embedded
claims, so they are folded into `Other` here. -/
def NetworkEvents.process_network_event (cfg : DutyConfig) (network : Network)
    (event : RoutingEvent) : Option NodeOperation :=
  match event with
  -- network_events.rs lines 43-46: promotion acts unconditionally.
  | .PromotedToElder => cfg.setup_as_elder
  -- network_events.rs lines 47-56.
  | .MemberLeft name age => some (.ProcessLostMember name age)
  -- network_events.rs lines 57-79: startup relocation wins; otherwise a
  -- previous name yields a relocated-member duty, and no duty results when
  -- neither applies.
  | .MemberJoined name previous_name age startup_relocation =>
      if startup_relocation then
        some (.ProcessNewMember name)
      else
        match previous_name with
        | some prev_name => some (.ProcessRelocatedMember prev_name name age)
        | none => none
  -- network_events.rs lines 101-112: the current tracked age is re-checked.
  | .Relocated =>
      if MIN_AGE < network.age then cfg.setup_as_adult else none
  -- network_events.rs lines 113-124: same re-check on demotion.
  | .Demoted =>
      if MIN_AGE < network.age then cfg.setup_as_adult else none
  -- network_events.rs lines 125-127.
  | .Other => none

/-- A sample name under the prefix `[true]`. -/
def nameA : XorName := [true, false]

/-- A sample name outside the prefix `[true]`. -/
def nameB : XorName := [false, true]

/-- A second sample name under the prefix `[true]`. -/
def nameC : XorName := [true, true]

/-- A sample membership view: `nameA` is a member of age 6, the section
prefix is `[true]`, our own name is `nameB`. -/
def sampleNetwork : Network :=
  { our_members := [(nameA, 6)], ourPrefix := [true], our_name := nameB,
    section_public_key := 9, age := 6 }

/-- A sample finalized credit proof. -/
def proof7 : CreditAgreementProof := { id := 7, amount := 100 }

/-- A sample chunk. -/
def sampleBlob : Blob := { name := nameC, payload := 3 }

/-- A sample Adult node: chunk store present, Elder subsystems absent. -/
def adultNode : Node :=
  { node_info := { node_name := nameB, root_dir := 0 },
    network_api := sampleNetwork,
    chunks := some (Chunks.new nameB 0),
    meta_data := none, transfers := none, section_funds := none }

/-- A sample Elder node in steady state: chunk store absent, metadata,
transfers and section funds present. -/
def elderNode : Node :=
  { node_info := { node_name := nameB, root_dir := 0 },
    network_api := sampleNetwork,
    chunks := none,
    meta_data := some { held := [(nameC, [nameA])] },
    transfers := some { replica_events := [] },
    section_funds := some (.KeepingNodeWallets [(nameA, 4, 6)] [(7, proof7)]) }

/-- A sample reward process one accumulation short of completion: quorum 1,
one pending credit with no supporters yet. -/
def almostDoneProcess : RewardProcess :=
  { quorum := 1, stage := .Accumulating [(7, proof7, [])] }

/-- A sample Elder node amid churn, holding `almostDoneProcess`. -/
def churningNode : Node :=
  { node_info := { node_name := nameB, root_dir := 0 },
    network_api := sampleNetwork,
    chunks := none,
    meta_data := some { held := [(nameC, [nameA])] },
    transfers := some { replica_events := [] },
    section_funds := some (.Churning almostDoneProcess [(nameA, 4, 6)] [(8, { id := 8, amount := 2 })]) }

/-- The accumulation that completes `almostDoneProcess`. -/
def completingAcc : CreditAccumulation :=
  { sender := nameA, id := 7, proof := proof7 }

/-- A sample chunk whose address is outside the sample section's prefix. -/
def foreignBlob : Blob := { name := nameB, payload := 1 }

/-- A sample chunk read targeting an address outside the sample prefix. -/
def foreignRead : BlobRead := { address := nameB }

/-- A sample metadata query targeting an address outside the sample prefix. -/
def foreignQuery : DataQuery := { address := nameB }

/-- A sample duty config whose role bootstraps both return an operation. -/
def sampleCfg : DutyConfig :=
  { setup_as_elder := some (.Setup 1), setup_as_adult := some (.Setup 2) }

/-- A sample membership view in which the node's tracked age does not clear
the promotion threshold. -/
def lowAgeNetwork : Network := { sampleNetwork with age := 0 }

/-- C10: for every `GetNodeWalletKey` duty, regardless of the node's current
role or subsystem state, the handle call succeeds with an empty follow-up
duty list and leaves all node state unchanged. -/
theorem get_node_wallet_key_is_noop (s : Node) (node_name : XorName) (msg_id : MessageId)
    (origin : EndUser) :
    Node.handle s (.GetNodeWalletKey node_name msg_id origin) = (s, .ok []) := rfl

/-- C3: for every `StoreChunkForReplication` duty whose supplied correlation
id differs from the recomputed combination of the chunk's address name and
the local node's name, the duty is discarded: the state is unchanged and the
result is `ok` with an empty duty list. -/
theorem store_chunk_replication_mismatch_discards (s : Node) (data : Blob) (cid : MessageId)
    (h : MessageId.combine [data.name, s.network_api.our_name] ≠ cid) :
    Node.handle s (.StoreChunkForReplication data cid) = (s, .ok []) := by
  simp only [Node.handle]
  rw [if_neg h]

/-- Witness for C3 at a concrete node and chunk. -/
theorem store_chunk_replication_mismatch_discards_witness :
    MessageId.combine [sampleBlob.name, adultNode.network_api.our_name] ≠ [[]] ∧
    Node.handle adultNode (.StoreChunkForReplication sampleBlob [[]]) = (adultNode, .ok []) :=
  ⟨by decide, store_chunk_replication_mismatch_discards adultNode sampleBlob [[]] (by decide)⟩

/-- C9: the correlation-id check precedes the chunk-store lookup: when the
chunk store is absent, a non-matching correlation id still yields `ok` with
an empty list, while a matching one fails with the `NoChunks` role-mismatch
error. -/
theorem correlation_check_precedes_chunk_lookup (s : Node) (data : Blob) (cid : MessageId)
    (hnone : s.chunks = none) :
    (MessageId.combine [data.name, s.network_api.our_name] ≠ cid →
      Node.handle s (.StoreChunkForReplication data cid) = (s, .ok [])) ∧
    (MessageId.combine [data.name, s.network_api.our_name] = cid →
      Node.handle s (.StoreChunkForReplication data cid) = (s, .error .NoChunks)) := by
  constructor
  · intro h
    simp only [Node.handle]
    rw [if_neg h]
  · intro h
    simp only [Node.handle, hnone]
    rw [if_pos h]

/-- Witness for C9 at a concrete Elder node (no chunk store). -/
theorem correlation_check_precedes_chunk_lookup_witness :
    elderNode.chunks = none ∧
    Node.handle elderNode (.StoreChunkForReplication sampleBlob [[]]) = (elderNode, .ok []) ∧
    Node.handle elderNode
        (.StoreChunkForReplication sampleBlob
          (MessageId.combine [sampleBlob.name, elderNode.network_api.our_name]))
      = (elderNode, .error .NoChunks) :=
  ⟨by decide,
   (correlation_check_precedes_chunk_lookup elderNode sampleBlob [[]] (by decide)).1 (by decide),
   (correlation_check_precedes_chunk_lookup elderNode sampleBlob
      (MessageId.combine [sampleBlob.name, elderNode.network_api.our_name]) (by decide)).2 rfl⟩

/-- C1: a `ReceiveRewardAccumulation` duty handled while `SectionFunds` is
`Churning` whose merge leaves the churn process in the `Completed` stage
replaces the funds, within the same handle call, by `KeepingNodeWallets`
carrying exactly the wallet registry and pending payments present
immediately before the transition, and returns the accumulation's follow-up
duty followed by one propagate-credit duty per finalized credit proof. -/
theorem reward_accumulation_completed_switches_to_keeping (s : Node)
    (process : RewardProcess) (wallets : RewardWallets) (payments : Payments)
    (acc : CreditAccumulation) (credit_proofs : Credits)
    (hs : s.section_funds = some (.Churning process wallets payments))
    (hc : (RewardProcess.receive_wallet_accumulation process acc).1.stage
            = .Completed credit_proofs) :
    Node.handle s (.ReceiveRewardAccumulation acc) =
      ({ s with section_funds := some (.KeepingNodeWallets wallets payments) },
       .ok ((RewardProcess.receive_wallet_accumulation process acc).2
             :: propagate_credits credit_proofs)) := by
  simp only [Node.handle, hs]
  rw [hc]

/-- Witness for C1: a churning node whose reward process is one accumulation
short of quorum completes on the incoming accumulation, keeping its wallet
registry and pending payments and emitting one propagate-credit duty. -/
theorem reward_accumulation_completed_switches_to_keeping_witness :
    churningNode.section_funds
        = some (.Churning almostDoneProcess [(nameA, 4, 6)] [(8, { id := 8, amount := 2 })]) ∧
    (RewardProcess.receive_wallet_accumulation almostDoneProcess completingAcc).1.stage
        = .Completed [(7, proof7)] ∧
    Node.handle churningNode (.ReceiveRewardAccumulation completingAcc) =
      ({ churningNode with
          section_funds :=
            some (.KeepingNodeWallets [(nameA, 4, 6)] [(8, { id := 8, amount := 2 })]) },
       .ok ((RewardProcess.receive_wallet_accumulation almostDoneProcess completingAcc).2
             :: propagate_credits [(7, proof7)])) :=
  ⟨by decide, by decide,
   reward_accumulation_completed_switches_to_keeping churningNode almostDoneProcess
     [(nameA, 4, 6)] [(8, { id := 8, amount := 2 })] completingAcc [(7, proof7)]
     (by decide) (by decide)⟩

/-- C4: for every `SetNodeWallet` duty handled while section funds are
present, an identity absent from live membership fails with the Not-found
error leaving all state (the wallet registry included) unchanged, and a
present identity stores the wallet entry with the age read from live
membership at write time. -/
theorem set_node_wallet_membership_check (s : Node) (funds : SectionFunds)
    (wallet_id : PublicKey) (node_id : XorName) (msg_id : MessageId) (origin : EndUser)
    (hf : s.section_funds = some funds) :
    (s.network_api.member_age node_id = none →
      Node.handle s (.SetNodeWallet wallet_id node_id msg_id origin)
        = (s, .error .NodeNotFoundForReward)) ∧
    (∀ age, s.network_api.member_age node_id = some age →
      Node.handle s (.SetNodeWallet wallet_id node_id msg_id origin)
        = ({ s with section_funds := some (funds.set_node_wallet node_id wallet_id age) },
           .ok [])) := by
  constructor
  · intro h
    simp only [Node.handle, hf, h]
  · intro age h
    simp only [Node.handle, hf, h]

/-- Witness for C4 at a concrete Elder node: `nameB` is not a member and is
refused, `nameA` is a member of age 6 and is stored with that age. -/
theorem set_node_wallet_membership_check_witness :
    elderNode.section_funds = some (.KeepingNodeWallets [(nameA, 4, 6)] [(7, proof7)]) ∧
    elderNode.network_api.member_age nameB = none ∧
    Node.handle elderNode (.SetNodeWallet 11 nameB [] 0)
      = (elderNode, .error .NodeNotFoundForReward) ∧
    elderNode.network_api.member_age nameA = some 6 ∧
    Node.handle elderNode (.SetNodeWallet 11 nameA [] 0)
      = ({ elderNode with
            section_funds :=
              some (SectionFunds.set_node_wallet
                (.KeepingNodeWallets [(nameA, 4, 6)] [(7, proof7)]) nameA 11 6) },
         .ok []) :=
  ⟨rfl, rfl,
   (set_node_wallet_membership_check elderNode
      (.KeepingNodeWallets [(nameA, 4, 6)] [(7, proof7)]) 11 nameB [] 0 rfl).1 rfl,
   rfl,
   (set_node_wallet_membership_check elderNode
      (.KeepingNodeWallets [(nameA, 4, 6)] [(7, proof7)]) 11 nameA [] 0 rfl).2 6 rfl⟩

/-- C2 counterexample: a reward-accumulation duty arriving while section
funds are absent is silently ignored with an `ok` empty duty list — the call
does not fail with a typed subsystem-not-active error as the claim states. -/
theorem reward_accumulation_without_funds_is_silently_ignored :
    adultNode.section_funds = none ∧
    Node.handle adultNode (.ReceiveRewardAccumulation completingAcc) = (adultNode, .ok []) :=
  ⟨rfl, rfl⟩

/-- C2 amended: duties whose handlers look up the chunk store, metadata
store, transfer ledger or section funds fail with the corresponding typed
error when that subsystem is absent — except the reward-churn duties
`ReceiveRewardProposal` and `ReceiveRewardAccumulation`, which return `ok`
with an empty duty list whenever section funds are not in the `Churning`
state (absent or `KeepingNodeWallets`). -/
theorem absent_subsystem_duty_errors (s : Node) (proposal : RewardProposal)
    (acc : CreditAccumulation) (wallet_id : PublicKey) (node_id name addr : XorName)
    (age : Age) (credit : CreditAgreementProof) (w : Blob) (cmd : DataCmd) (q : DataQuery)
    (r : BlobRead) (holders : List XorName) (msg_id : MessageId) (origin : EndUser) :
    (s.section_funds = none →
      Node.handle s (.SetNodeWallet wallet_id node_id msg_id origin)
          = (s, .error .NoSectionFunds) ∧
      Node.handle s (.ProcessLostMember name age) = (s, .error .NoSectionFunds) ∧
      Node.handle s (.AddPayment credit) = (s, .error .NoSectionFunds) ∧
      Node.handle s (.ReceiveRewardProposal proposal) = (s, .ok []) ∧
      Node.handle s (.ReceiveRewardAccumulation acc) = (s, .ok [])) ∧
    (∀ wallets payments, s.section_funds = some (.KeepingNodeWallets wallets payments) →
      Node.handle s (.ReceiveRewardProposal proposal) = (s, .ok []) ∧
      Node.handle s (.ReceiveRewardAccumulation acc) = (s, .ok [])) ∧
    (s.meta_data = none →
      Node.handle s (.ProcessWrite cmd msg_id origin) = (s, .error .NoMetadata) ∧
      (s.network_api.ourPrefix.matches q.address = true →
        Node.handle s (.ProcessRead q msg_id origin) = (s, .error .NoMetadata))) ∧
    (s.transfers = none →
      Node.handle s (.GetTransferReplicaEvents msg_id origin) = (s, .error .NoTransfers)) ∧
    (s.chunks = none →
      Node.handle s (.WriteChunk w msg_id origin) = (s, .error .NoChunks) ∧
      Node.handle s (.ReplicateChunk holders addr msg_id) = (s, .error .NoChunks) ∧
      (s.network_api.ourPrefix.matches r.address = true →
        Node.handle s (.ReadChunk r msg_id origin) = (s, .error .NoChunks))) := by
  refine ⟨fun h => ⟨?_, ?_, ?_, ?_, ?_⟩, fun wallets payments h => ⟨?_, ?_⟩,
          fun h => ⟨?_, fun hq => ?_⟩, fun h => ?_, fun h => ⟨?_, ?_, fun hr => ?_⟩⟩ <;>
    simp only [Node.handle, h, if_true, if_pos]
  · rw [hq]
    simp
  · rw [hr]
    simp

/-- Witness for C2 amended at the concrete Adult node (funds, metadata and
transfers absent) and Elder node (chunk store absent, funds keeping
wallets). -/
theorem absent_subsystem_duty_errors_witness :
    adultNode.section_funds = none ∧
    Node.handle adultNode (.AddPayment proof7) = (adultNode, .error .NoSectionFunds) ∧
    Node.handle adultNode (.ReceiveRewardProposal [(7, proof7)]) = (adultNode, .ok []) ∧
    adultNode.meta_data = none ∧
    Node.handle adultNode (.ProcessWrite { address := nameA } [] 0)
      = (adultNode, .error .NoMetadata) ∧
    adultNode.transfers = none ∧
    Node.handle adultNode (.GetTransferReplicaEvents [] 0)
      = (adultNode, .error .NoTransfers) ∧
    elderNode.chunks = none ∧
    Node.handle elderNode (.WriteChunk sampleBlob [] 0) = (elderNode, .error .NoChunks) ∧
    Node.handle elderNode (.ReceiveRewardProposal [(7, proof7)]) = (elderNode, .ok []) :=
  ⟨rfl,
   ((absent_subsystem_duty_errors adultNode [(7, proof7)] completingAcc 11 nameA nameA nameA
       6 proof7 sampleBlob { address := nameA } { address := nameA } { address := nameA }
       [] [] 0).1 rfl).2.2.1,
   ((absent_subsystem_duty_errors adultNode [(7, proof7)] completingAcc 11 nameA nameA nameA
       6 proof7 sampleBlob { address := nameA } { address := nameA } { address := nameA }
       [] [] 0).1 rfl).2.2.2.1,
   rfl,
   ((absent_subsystem_duty_errors adultNode [(7, proof7)] completingAcc 11 nameA nameA nameA
       6 proof7 sampleBlob { address := nameA } { address := nameA } { address := nameA }
       [] [] 0).2.2.1 rfl).1,
   rfl,
   ((absent_subsystem_duty_errors adultNode [(7, proof7)] completingAcc 11 nameA nameA nameA
       6 proof7 sampleBlob { address := nameA } { address := nameA } { address := nameA }
       [] [] 0).2.2.2.1 rfl),
   rfl,
   ((absent_subsystem_duty_errors elderNode [(7, proof7)] completingAcc 11 nameA nameA nameA
       6 proof7 sampleBlob { address := nameA } { address := nameA } { address := nameA }
       [] [] 0).2.2.2.2 rfl).1,
   ((absent_subsystem_duty_errors elderNode [(7, proof7)] completingAcc 11 nameA nameA nameA
       6 proof7 sampleBlob { address := nameA } { address := nameA } { address := nameA }
       [] [] 0).2.1 [(nameA, 4, 6)] [(7, proof7)] rfl).1⟩

/-- C5 counterexample: after a `LevelDown` on a concrete Elder node, section
funds are absent, yet the subsequent reward duty `ReceiveRewardProposal`
returns `ok` with an empty list instead of failing with a role-mismatch
error as the claim states. -/
theorem level_down_then_reward_proposal_is_ignored :
    (Node.handle elderNode .LevelDown).1.section_funds = none ∧
    Node.handle (Node.handle elderNode .LevelDown).1 (.ReceiveRewardProposal [(7, proof7)])
      = ((Node.handle elderNode .LevelDown).1, .ok []) :=
  ⟨rfl, rfl⟩

/-- C5 amended: after a `LevelDown` completes, the metadata store, transfer
ledger and section funds are absent and a fresh chunk store is present; every
subsequent metadata or transfer duty, and the wallet-registry reward duties
(`SetNodeWallet`, `ProcessLostMember`, `AddPayment`), fail with the
corresponding role-mismatch typed error, while the reward-churn duties
`ReceiveRewardProposal` and `ReceiveRewardAccumulation` are silently ignored
with an `ok` empty duty list. -/
theorem level_down_tears_down_elder_subsystems (s : Node) (wallet_id : PublicKey)
    (node_id name : XorName) (age : Age) (credit : CreditAgreementProof)
    (proposal : RewardProposal) (acc : CreditAccumulation) (cmd : DataCmd)
    (msg_id : MessageId) (origin : EndUser) :
    Node.handle s .LevelDown
      = ({ s with meta_data := none, transfers := none, section_funds := none,
                  chunks := some (Chunks.new s.node_info.node_name s.node_info.root_dir) },
         .ok []) ∧
    Node.handle (Node.handle s .LevelDown).1 (.SetNodeWallet wallet_id node_id msg_id origin)
      = ((Node.handle s .LevelDown).1, .error .NoSectionFunds) ∧
    Node.handle (Node.handle s .LevelDown).1 (.ProcessLostMember name age)
      = ((Node.handle s .LevelDown).1, .error .NoSectionFunds) ∧
    Node.handle (Node.handle s .LevelDown).1 (.AddPayment credit)
      = ((Node.handle s .LevelDown).1, .error .NoSectionFunds) ∧
    Node.handle (Node.handle s .LevelDown).1 (.ProcessWrite cmd msg_id origin)
      = ((Node.handle s .LevelDown).1, .error .NoMetadata) ∧
    Node.handle (Node.handle s .LevelDown).1 (.GetTransferReplicaEvents msg_id origin)
      = ((Node.handle s .LevelDown).1, .error .NoTransfers) ∧
    Node.handle (Node.handle s .LevelDown).1 (.ReceiveRewardProposal proposal)
      = ((Node.handle s .LevelDown).1, .ok []) ∧
    Node.handle (Node.handle s .LevelDown).1 (.ReceiveRewardAccumulation acc)
      = ((Node.handle s .LevelDown).1, .ok []) :=
  ⟨rfl, rfl, rfl, rfl, rfl, rfl, rfl, rfl⟩

/-- C6 counterexample: a `WriteChunk` duty whose address lies outside the
node's section prefix is still executed against the local chunk store (the
chunk is stored, mutating node state) and returns the local write result, not
an outbound `Send` duty to the owning section as the claim states. -/
theorem write_chunk_foreign_address_executes_locally :
    adultNode.network_api.ourPrefix.matches foreignBlob.name = false ∧
    Node.handle adultNode (.WriteChunk foreignBlob [] 0)
      = ({ adultNode with
            chunks := some ((Chunks.new nameB 0).write foreignBlob [] 0).1 },
         .ok [.WriteResult [] 0]) ∧
    (Node.handle adultNode (.WriteChunk foreignBlob [] 0)).1 ≠ adultNode :=
  ⟨rfl, rfl, by decide⟩

/-- C6 amended: only the read duties (`ReadChunk`, `ProcessRead`) check the
section prefix and convert a non-local address into a single outbound `Send`
duty to the owning section; the write duties (`WriteChunk`, `ProcessWrite`)
are executed against the local subsystem unconditionally, with no prefix
check. -/
theorem address_check_forwards_reads_only (s : Node) (r : BlobRead) (q : DataQuery)
    (w : Blob) (cmd : DataCmd) (msg_id : MessageId) (origin : EndUser) :
    (s.network_api.ourPrefix.matches r.address = false →
      Node.handle s (.ReadChunk r msg_id origin)
        = (s, .ok [.Send { msg := .NodeQuery (.Chunks r origin) msg_id none,
                           dst := .Section r.address,
                           section_source := false, aggregation := .None }])) ∧
    (s.network_api.ourPrefix.matches q.address = false →
      Node.handle s (.ProcessRead q msg_id origin)
        = (s, .ok [.Send { msg := .NodeQuery (.Metadata q origin) msg_id none,
                           dst := .Section q.address,
                           section_source := false, aggregation := .None }])) ∧
    (∀ chunks, s.chunks = some chunks →
      Node.handle s (.WriteChunk w msg_id origin)
        = ({ s with chunks := some (chunks.write w msg_id origin).1 },
           .ok [(chunks.write w msg_id origin).2])) ∧
    (∀ meta_data, s.meta_data = some meta_data →
      Node.handle s (.ProcessWrite cmd msg_id origin)
        = (s, .ok [meta_data.write cmd msg_id origin])) := by
  refine ⟨fun hr => ?_, fun hq => ?_, fun chunks hc => ?_, fun meta_data hm => ?_⟩
  · simp only [Node.handle]
    rw [hr]
    simp
  · simp only [Node.handle]
    rw [hq]
    simp
  · simp only [Node.handle, hc]
  · simp only [Node.handle, hm]

/-- Witness for C6 amended at concrete nodes: the Elder forwards a foreign
read, the Adult writes a foreign-addressed chunk locally. -/
theorem address_check_forwards_reads_only_witness :
    elderNode.network_api.ourPrefix.matches foreignQuery.address = false ∧
    Node.handle elderNode (.ProcessRead foreignQuery [] 0)
      = (elderNode, .ok [.Send { msg := .NodeQuery (.Metadata foreignQuery 0) [] none,
                                 dst := .Section foreignQuery.address,
                                 section_source := false, aggregation := .None }]) ∧
    adultNode.chunks = some (Chunks.new nameB 0) ∧
    Node.handle adultNode (.WriteChunk foreignBlob [] 0)
      = ({ adultNode with
            chunks := some ((Chunks.new nameB 0).write foreignBlob [] 0).1 },
         .ok [((Chunks.new nameB 0).write foreignBlob [] 0).2]) :=
  ⟨rfl,
   (address_check_forwards_reads_only elderNode foreignRead foreignQuery sampleBlob
      { address := nameA } [] 0).2.1 rfl,
   rfl,
   (address_check_forwards_reads_only adultNode foreignRead foreignQuery foreignBlob
      { address := nameA } [] 0).2.2.1 (Chunks.new nameB 0) rfl⟩

/-- C7 counterexample: a `PromotedToElder` event is acted on with no age
re-check: with a tracked age not clearing the promotion threshold the
translator still returns the elder-setup operation instead of no duty as the
claim states. -/
theorem promoted_to_elder_skips_age_recheck :
    lowAgeNetwork.age ≤ MIN_AGE ∧
    NetworkEvents.process_network_event sampleCfg lowAgeNetwork .PromotedToElder
      = some (.Setup 1) :=
  ⟨by decide, rfl⟩

/-- C7 amended: the current-age re-check applies to the `Relocated` and
`Demoted` events only, which produce the adult-setup operation exactly when
the tracked age is strictly greater than `MIN_AGE` and no duty otherwise;
the `PromotedToElder` event performs the elder setup unconditionally. -/
theorem age_recheck_applies_to_relocated_and_demoted (cfg : DutyConfig) (network : Network) :
    NetworkEvents.process_network_event cfg network .PromotedToElder = cfg.setup_as_elder ∧
    NetworkEvents.process_network_event cfg network .Relocated
      = (if MIN_AGE < network.age then cfg.setup_as_adult else none) ∧
    NetworkEvents.process_network_event cfg network .Demoted
      = (if MIN_AGE < network.age then cfg.setup_as_adult else none) :=
  ⟨rfl, rfl, rfl⟩

/-- C8 counterexample: a member-joined event with a previous identity
attached but flagged as a startup relocation yields a new-member duty, not
the relocated-member duty the claim requires; and one with no previous
identity and no startup flag yields no duty at all, not a new-member duty. -/
theorem member_joined_choice_not_by_previous_identity :
    NetworkEvents.process_network_event sampleCfg sampleNetwork
        (.MemberJoined nameA (some nameB) 6 true) = some (.ProcessNewMember nameA) ∧
    NetworkEvents.process_network_event sampleCfg sampleNetwork
        (.MemberJoined nameA none 6 false) = none :=
  ⟨rfl, rfl⟩

/-- C8 amended: a member-joined event flagged as a startup relocation yields
a new-member duty; otherwise an attached previous identity yields a
relocated-member duty carrying the old identity, new identity and age, and
an event with neither yields no duty. -/
theorem member_joined_dispatch (cfg : DutyConfig) (network : Network) (name : XorName)
    (previous_name : Option XorName) (age : Age) (startup_relocation : Bool) :
    NetworkEvents.process_network_event cfg network
        (.MemberJoined name previous_name age startup_relocation)
      = if startup_relocation then some (.ProcessNewMember name)
        else
          match previous_name with
          | some prev_name => some (.ProcessRelocatedMember prev_name name age)
          | none => none :=
  rfl
